import Mathlib

/-!
Shallow embedding of the `errors` package of BakerYoung/lantern
(source file `src/unnamed/part_000`).

Go error values are embedded as the inductive `GoError`, whose constructors
are the concrete error shapes the package's `parseError` dispatches on, each
carrying exactly the fields that `parseError` (or the shape's own `Error()`
method, when `parseError` calls it) reads.  Strings produced by deep Go
library formatting that the repository only observes through `Error()`
(e.g. the OS message of a `syscall.Errno`, the formatting of the `json`
error types) are carried as an `errMsg`-style field of the value, since
they are data of the runtime value rather than code of this repository.
Pointers that the package stores without copying (`*ProxyingInfo`,
`*UserAgentInfo`) are embedded as addresses (`Nat`), so that aliasing of a
block between two records is expressible as equality of addresses.
-/

/-- Op is the operation causing an error, a string type in the source. -/
abbrev Op := String

/-- Identity-keyed singletons of the source's `httpProtocolErrors` table:
the seven `*http.ProtocolError` values of `net/http` listed at lines
392-400 of the source. -/
inductive HttpProtoErr where
  | errHeaderTooLong
  | errShortBody
  | errNotSupported
  | errUnexpectedTrailer
  | errMissingContentLength
  | errNotMultipart
  | errMissingBoundary
deriving DecidableEq, Repr

/-- The `httpProtocolErrors` map of the source (lines 392-400): name
assigned to each `*http.ProtocolError` singleton. -/
def httpProtocolErrors : HttpProtoErr → String
  | .errHeaderTooLong => "http.ErrHeaderTooLong"
  | .errShortBody => "http.ErrShortBody"
  | .errNotSupported => "http.ErrNotSupported"
  | .errUnexpectedTrailer => "http.ErrUnexpectedTrailer"
  | .errMissingContentLength => "http.ErrMissingContentLength"
  | .errNotMultipart => "http.ErrNotMultipart"
  | .errMissingBoundary => "http.ErrMissingBoundary"

/-- An apostrophe character, used inside Go library message literals. -/
def apos : String := (Char.ofNat 39).toString

/-- The `ErrorString` field of each `*http.ProtocolError` singleton, as
defined in Go's `net/http` package. -/
def httpProtoMsg : HttpProtoErr → String
  | .errHeaderTooLong => "header too long"
  | .errShortBody => "entity body too short"
  | .errNotSupported => "feature not supported"
  | .errUnexpectedTrailer => "trailer header without chunked transfer encoding"
  | .errMissingContentLength => "missing ContentLength in HEAD response"
  | .errNotMultipart => "request Content-Type isn" ++ apos ++ "t multipart/form-data"
  | .errMissingBoundary => "no multipart boundary param in Content-Type"

/-- Identity-keyed singletons of the source's `miscErrors` table
(lines 402-442).  Every one of them is created by `errors.New` in its Go
package, so its dynamic type is `*errors.errorString`. -/
inductive MiscErr where
  | bufioErrInvalidUnreadByte
  | bufioErrInvalidUnreadRune
  | bufioErrBufferFull
  | bufioErrNegativeCount
  | bufioErrTooLong
  | bufioErrNegativeAdvance
  | bufioErrAdvanceTooFar
  | bufioErrFinalToken
  | httpErrWriteAfterFlush
  | httpErrBodyNotAllowed
  | httpErrHijacked
  | httpErrContentLength
  | httpErrBodyReadAfterClose
  | httpErrHandlerTimeout
  | httpErrLineTooLong
  | httpErrMissingFile
  | httpErrNoCookie
  | httpErrNoLocation
  | httpErrSkipAltProtocol
  | ioEOF
  | ioErrClosedPipe
  | ioErrNoProgress
  | ioErrShortBuffer
  | ioErrShortWrite
  | ioErrUnexpectedEOF
  | osErrInvalid
  | osErrPermission
  | osErrExist
  | osErrNotExist
  | execErrNotFound
  | x509ErrUnsupportedAlgorithm
  | x509IncorrectPasswordError
  | hexErrLength
deriving DecidableEq, Repr

/-- The `miscErrors` map of the source (lines 402-442): name assigned to
each well-known singleton error value, keyed by identity. -/
def miscErrors : MiscErr → String
  | .bufioErrInvalidUnreadByte => "bufio.ErrInvalidUnreadByte"
  | .bufioErrInvalidUnreadRune => "bufio.ErrInvalidUnreadRune"
  | .bufioErrBufferFull => "bufio.ErrBufferFull"
  | .bufioErrNegativeCount => "bufio.ErrNegativeCount"
  | .bufioErrTooLong => "bufio.ErrTooLong"
  | .bufioErrNegativeAdvance => "bufio.ErrNegativeAdvance"
  | .bufioErrAdvanceTooFar => "bufio.ErrAdvanceTooFar"
  | .bufioErrFinalToken => "bufio.ErrFinalToken"
  | .httpErrWriteAfterFlush => "http.ErrWriteAfterFlush"
  | .httpErrBodyNotAllowed => "http.ErrBodyNotAllowed"
  | .httpErrHijacked => "http.ErrHijacked"
  | .httpErrContentLength => "http.ErrContentLength"
  | .httpErrBodyReadAfterClose => "http.ErrBodyReadAfterClose"
  | .httpErrHandlerTimeout => "http.ErrHandlerTimeout"
  | .httpErrLineTooLong => "http.ErrLineTooLong"
  | .httpErrMissingFile => "http.ErrMissingFile"
  | .httpErrNoCookie => "http.ErrNoCookie"
  | .httpErrNoLocation => "http.ErrNoLocation"
  | .httpErrSkipAltProtocol => "http.ErrSkipAltProtocol"
  | .ioEOF => "io.EOF"
  | .ioErrClosedPipe => "io.ErrClosedPipe"
  | .ioErrNoProgress => "io.ErrNoProgress"
  | .ioErrShortBuffer => "io.ErrShortBuffer"
  | .ioErrShortWrite => "io.ErrShortWrite"
  | .ioErrUnexpectedEOF => "io.ErrUnexpectedEOF"
  | .osErrInvalid => "os.ErrInvalid"
  | .osErrPermission => "os.ErrPermission"
  | .osErrExist => "os.ErrExist"
  | .osErrNotExist => "os.ErrNotExist"
  | .execErrNotFound => "exec.ErrNotFound"
  | .x509ErrUnsupportedAlgorithm => "x509.ErrUnsupportedAlgorithm"
  | .x509IncorrectPasswordError => "x509.IncorrectPasswordError"
  | .hexErrLength => "hex.ErrLength"

/-- The message each `miscErrors` singleton carries, i.e. what its Go
`Error()` method returns (the `errors.New` argument in its package). -/
def miscMsg : MiscErr → String
  | .bufioErrInvalidUnreadByte => "bufio: invalid use of UnreadByte"
  | .bufioErrInvalidUnreadRune => "bufio: invalid use of UnreadRune"
  | .bufioErrBufferFull => "bufio: buffer full"
  | .bufioErrNegativeCount => "bufio: negative count"
  | .bufioErrTooLong => "bufio.Scanner: token too long"
  | .bufioErrNegativeAdvance => "bufio.Scanner: SplitFunc returns negative advance count"
  | .bufioErrAdvanceTooFar => "bufio.Scanner: SplitFunc returns advance count beyond input"
  | .bufioErrFinalToken => "final token"
  | .httpErrWriteAfterFlush => "Conn.Write called after Flush"
  | .httpErrBodyNotAllowed => "http: request method or response status code does not allow body"
  | .httpErrHijacked => "Conn has been hijacked"
  | .httpErrContentLength => "Conn.Write wrote more than the declared Content-Length"
  | .httpErrBodyReadAfterClose => "http: invalid Read on closed Body"
  | .httpErrHandlerTimeout => "http: Handler timeout"
  | .httpErrLineTooLong => "header line too long"
  | .httpErrMissingFile => "http: no such file"
  | .httpErrNoCookie => "http: named cookie not present"
  | .httpErrNoLocation => "http: no Location header in response"
  | .httpErrSkipAltProtocol => "net/http: skip alternate protocol"
  | .ioEOF => "EOF"
  | .ioErrClosedPipe => "io: read/write on closed pipe"
  | .ioErrNoProgress => "multiple Read calls return no data or error"
  | .ioErrShortBuffer => "short buffer"
  | .ioErrShortWrite => "short write"
  | .ioErrUnexpectedEOF => "unexpected EOF"
  | .osErrInvalid => "invalid argument"
  | .osErrPermission => "permission denied"
  | .osErrExist => "file already exists"
  | .osErrNotExist => "file does not exist"
  | .execErrNotFound => "executable file not found in $PATH"
  | .x509ErrUnsupportedAlgorithm => "x509: cannot verify signature: algorithm unimplemented"
  | .x509IncorrectPasswordError => "x509: decryption password incorrect"
  | .hexErrLength => "encoding/hex: odd length hex string"

/-- Embedding of the Go error values the package classifies.  Each
constructor is one concrete shape appearing in `parseError`, carrying the
fields its extractor (or its `Error()` method) reads; `custom` is an
arbitrary unrecognized error (its dynamic type name and message), and
`customNet` an unrecognized implementation of the `net.Error` interface. -/
inductive GoError where
  | opError (op : String) (source : Option String) (addr : Option String)
      (net_ : String) (inner : GoError)
  | addrError (err : String) (addr : String)
  | dnsError (err : String) (name : String) (server : String)
  | invalidAddrError (msg : String)
  | netParseError (typ : String) (text : String)
  | unknownNetworkError (net_ : String)
  | errno (num : Nat) (errMsg : String)
  | urlError (op : String) (url : String) (inner : GoError)
  | customNet (typeName : String) (msg : String)
  | typeAssertionError (msg : String)
  | otherRuntimeError (typeName : String) (msg : String)
  | httpProtoSentinel (s : HttpProtoErr)
  | httpProtocolError (errorString : String)
  | escapeError (val : String)
  | invalidHostError (val : String)
  | textprotoError (code : Nat) (msg : String)
  | textprotoProtocolError (msg : String)
  | tlsRecordHeaderError (msg : String) (h0 h1 h2 h3 h4 : Nat)
  | x509CertificateInvalidError (errMsg : String)
  | x509ConstraintViolationError
  | x509HostnameError (host : String) (errMsg : String)
  | x509InsecureAlgorithmError (errMsg : String)
  | x509SystemRootsError
  | x509UnhandledCriticalExtension
  | x509UnknownAuthorityError (errMsg : String)
  | hexInvalidByteError (b : Nat) (errMsg : String)
  | jsonInvalidUTF8Error (s : String)
  | jsonInvalidUnmarshalError (errMsg : String)
  | jsonMarshalerError (errMsg : String)
  | jsonSyntaxError (errMsg : String)
  | jsonUnmarshalFieldError (errMsg : String)
  | jsonUnmarshalTypeError (errMsg : String)
  | jsonUnsupportedTypeError (errMsg : String)
  | jsonUnsupportedValueError (errMsg : String)
  | osLinkError (op : String) (old : String) (new_ : String) (errMsg : String)
  | osPathError (op : String) (path : String) (errMsg : String)
  | osSyscallError (sys : String) (errMsg : String)
  | execError (name : String) (errMsg : String)
  | execExitError (errMsg : String) (stderr : String)
  | strconvNumError (func_ : String) (num : String) (errMsg : String)
  | timeParseError (layout value layoutElem valueElem message : String)
  | miscSentinel (s : MiscErr)
  | custom (typeName : String) (msg : String)

/-- What Go's `reflect.TypeOf(err).String()` returns for each embedded
shape: the dynamic type name, with a leading `*` for pointer shapes.
Every `miscErrors` singleton is an `errors.New` value, so its dynamic
type is `*errors.errorString`. -/
def dynamicTypeName : GoError → String
  | .opError _ _ _ _ _ => "*net.OpError"
  | .addrError _ _ => "*net.AddrError"
  | .dnsError _ _ _ => "*net.DNSError"
  | .invalidAddrError _ => "net.InvalidAddrError"
  | .netParseError _ _ => "*net.ParseError"
  | .unknownNetworkError _ => "net.UnknownNetworkError"
  | .errno _ _ => "syscall.Errno"
  | .urlError _ _ _ => "*url.Error"
  | .customNet t _ => t
  | .typeAssertionError _ => "*runtime.TypeAssertionError"
  | .otherRuntimeError t _ => t
  | .httpProtoSentinel _ => "*http.ProtocolError"
  | .httpProtocolError _ => "*http.ProtocolError"
  | .escapeError _ => "url.EscapeError"
  | .invalidHostError _ => "url.InvalidHostError"
  | .textprotoError _ _ => "*textproto.Error"
  | .textprotoProtocolError _ => "textproto.ProtocolError"
  | .tlsRecordHeaderError _ _ _ _ _ _ => "tls.RecordHeaderError"
  | .x509CertificateInvalidError _ => "x509.CertificateInvalidError"
  | .x509ConstraintViolationError => "x509.ConstraintViolationError"
  | .x509HostnameError _ _ => "x509.HostnameError"
  | .x509InsecureAlgorithmError _ => "x509.InsecureAlgorithmError"
  | .x509SystemRootsError => "x509.SystemRootsError"
  | .x509UnhandledCriticalExtension => "x509.UnhandledCriticalExtension"
  | .x509UnknownAuthorityError _ => "x509.UnknownAuthorityError"
  | .hexInvalidByteError _ _ => "hex.InvalidByteError"
  | .jsonInvalidUTF8Error _ => "*json.InvalidUTF8Error"
  | .jsonInvalidUnmarshalError _ => "*json.InvalidUnmarshalError"
  | .jsonMarshalerError _ => "*json.MarshalerError"
  | .jsonSyntaxError _ => "*json.SyntaxError"
  | .jsonUnmarshalFieldError _ => "*json.UnmarshalFieldError"
  | .jsonUnmarshalTypeError _ => "*json.UnmarshalTypeError"
  | .jsonUnsupportedTypeError _ => "*json.UnsupportedTypeError"
  | .jsonUnsupportedValueError _ => "*json.UnsupportedValueError"
  | .osLinkError _ _ _ _ => "*os.LinkError"
  | .osPathError _ _ _ => "*os.PathError"
  | .osSyscallError _ _ => "*os.SyscallError"
  | .execError _ _ => "*exec.Error"
  | .execExitError _ _ => "*exec.ExitError"
  | .strconvNumError _ _ _ => "*strconv.NumError"
  | .timeParseError _ _ _ _ _ => "*time.ParseError"
  | .miscSentinel _ => "*errors.errorString"
  | .custom t _ => t

/-- Wrap a string in double quotes: models `strconv.Quote` (and the plain
`quote` helper of Go's `time` package) for strings without characters
needing escapes, the only way the embedded messages use it. -/
def goQuote (s : String) : String := "\"" ++ s ++ "\""

/-- What each embedded shape's Go `Error()` method returns, following the
stdlib implementations where those are simple formatting over the carried
fields, and returning the carried `errMsg` where the stdlib formatting is
deep library behaviour the repository never reimplements. -/
def goErrorMsg : GoError → String
  | .opError op src addr net_ inner =>
      op ++ (if net_ ≠ "" then " " ++ net_ else "")
        ++ (match src with | some s => " " ++ s | none => "")
        ++ (match addr with
            | some a => (match src with | some _ => "->" | none => " ") ++ a
            | none => "")
        ++ ": " ++ goErrorMsg inner
  | .addrError err addr =>
      if addr ≠ "" then "address " ++ addr ++ ": " ++ err else err
  | .dnsError err name server =>
      "lookup " ++ name ++ (if server ≠ "" then " on " ++ server else "")
        ++ ": " ++ err
  | .invalidAddrError msg => msg
  | .netParseError typ text => "invalid " ++ typ ++ ": " ++ text
  | .unknownNetworkError net_ => "unknown network " ++ net_
  | .errno _ errMsg => errMsg
  | .urlError op url inner => op ++ " " ++ url ++ ": " ++ goErrorMsg inner
  | .customNet _ msg => msg
  | .typeAssertionError msg => msg
  | .otherRuntimeError _ msg => msg
  | .httpProtoSentinel s => httpProtoMsg s
  | .httpProtocolError errorString => errorString
  | .escapeError val => "invalid URL escape " ++ goQuote val
  | .invalidHostError val => "invalid character " ++ goQuote val ++ " in host name"
  | .textprotoError code msg =>
      (if code < 10 then "00" else if code < 100 then "0" else "")
        ++ toString code ++ " " ++ msg
  | .textprotoProtocolError msg => msg
  | .tlsRecordHeaderError msg _ _ _ _ _ => "tls: " ++ msg
  | .x509CertificateInvalidError errMsg => errMsg
  | .x509ConstraintViolationError =>
      "x509: invalid signature: parent certificate cannot sign this kind of certificate"
  | .x509HostnameError _ errMsg => errMsg
  | .x509InsecureAlgorithmError errMsg => errMsg
  | .x509SystemRootsError => "x509: failed to load system roots and no roots provided"
  | .x509UnhandledCriticalExtension => "x509: unhandled critical extension"
  | .x509UnknownAuthorityError errMsg => errMsg
  | .hexInvalidByteError _ errMsg => errMsg
  | .jsonInvalidUTF8Error s => "json: invalid UTF-8 in string: " ++ goQuote s
  | .jsonInvalidUnmarshalError errMsg => errMsg
  | .jsonMarshalerError errMsg => errMsg
  | .jsonSyntaxError errMsg => errMsg
  | .jsonUnmarshalFieldError errMsg => errMsg
  | .jsonUnmarshalTypeError errMsg => errMsg
  | .jsonUnsupportedTypeError errMsg => errMsg
  | .jsonUnsupportedValueError errMsg => errMsg
  | .osLinkError op old new_ errMsg =>
      op ++ " " ++ old ++ " " ++ new_ ++ ": " ++ errMsg
  | .osPathError op path errMsg => op ++ " " ++ path ++ ": " ++ errMsg
  | .osSyscallError sys errMsg => sys ++ ": " ++ errMsg
  | .execError name errMsg => "exec: " ++ goQuote name ++ ": " ++ errMsg
  | .execExitError errMsg _ => errMsg
  | .strconvNumError func_ num errMsg =>
      "strconv." ++ func_ ++ ": parsing " ++ goQuote num ++ ": " ++ errMsg
  | .timeParseError layout value layoutElem valueElem message =>
      if message = "" then
        "parsing time " ++ goQuote value ++ " as " ++ goQuote layout
          ++ ": cannot parse " ++ goQuote valueElem ++ " as " ++ goQuote layoutElem
      else "parsing time " ++ goQuote value ++ message
  | .miscSentinel s => miscMsg s
  | .custom _ msg => msg

/-- Which embedded shapes satisfy Go's `net.Error` interface (method set
with `Error`, `Timeout`, `Temporary`): the shapes of the `net` package,
`syscall.Errno`, `*url.Error`, and any other implementation (`customNet`).
The source's first dispatch (`err.(net.Error)` at line 220) keys on this. -/
def isNetError : GoError → Bool
  | .opError _ _ _ _ _ => true
  | .addrError _ _ => true
  | .dnsError _ _ _ => true
  | .invalidAddrError _ => true
  | .netParseError _ _ => true
  | .unknownNetworkError _ => true
  | .errno _ _ => true
  | .urlError _ _ _ => true
  | .customNet _ _ => true
  | _ => false

/-- Which embedded shapes satisfy Go's `runtime.Error` interface, keyed on
by the source's second dispatch (`err.(runtime.Error)` at line 267). -/
def isRuntimeError : GoError → Bool
  | .typeAssertionError _ => true
  | .otherRuntimeError _ _ => true
  | _ => false

/-- Extra-field maps: association lists with the write-overwrites-key
semantics of a Go `map[string]string` assignment. -/
abbrev Extra := List (String × String)

/-- One Go map write `extra[k] = v`: overwrite the key if present,
otherwise append it. -/
def setExtra (m : Extra) (k v : String) : Extra :=
  if m.any (fun p => p.1 = k) then
    m.map (fun p => if p.1 = k then (k, v) else p)
  else m ++ [(k, v)]

/-- The four named results of the source's `parseError`. -/
structure ParseResult where
  op : String
  goType : String
  desc : String
  extra : Extra
deriving DecidableEq, Repr

/-- The inner switch of the network-interface branch of `parseError`
(lines 232-264), run on the possibly-unwrapped error with the operation
and extras collected from the wrapper. -/
def netSwitch (op0 : String) (ex : Extra) : GoError → ParseResult
  | .addrError err addr =>
      ⟨op0, "net.AddrError", err, setExtra ex "addr" addr⟩
  | .dnsError err name server =>
      ⟨op0, "net.DNSError", err,
        if server ≠ "" then setExtra (setExtra ex "domain" name) "dnsServer" server
        else setExtra ex "domain" name⟩
  | .invalidAddrError msg =>
      ⟨op0, "net.InvalidAddrError", goErrorMsg (.invalidAddrError msg), ex⟩
  | .netParseError typ text =>
      ⟨op0, "net.ParseError", "invalid " ++ typ, setExtra ex "textToParse" text⟩
  | .unknownNetworkError _ =>
      ⟨op0, "net.UnknownNetworkError", "unknown network", ex⟩
  | .errno num errMsg =>
      ⟨op0, "syscall.Errno", goErrorMsg (.errno num errMsg), ex⟩
  | .urlError op _ inner =>
      ⟨op, "url.Error", goErrorMsg inner, ex⟩
  | e => ⟨op0, dynamicTypeName e, goErrorMsg e, ex⟩

/-- The runtime-error branch of `parseError` (lines 267-276). -/
def runtimeSwitch (e : GoError) : ParseResult :=
  match e with
  | .typeAssertionError msg => ⟨"", "runtime.TypeAssertionError", msg, []⟩
  | e => ⟨"", dynamicTypeName e, goErrorMsg e, []⟩

/-- Lowercase hex digit. -/
def hexDig (n : Nat) : Char := "0123456789abcdef".toList.getD n (Char.ofNat 48)

/-- Two lowercase hex digits of a byte, as `hex.EncodeToString` produces. -/
def hexByte (n : Nat) : String :=
  String.mk [hexDig ((n % 256) / 16), hexDig (n % 16)]

/-- The struct switch of `parseError` (lines 279-388), including its
default branch with the identity lookup in `miscErrors`. -/
def structSwitch (e : GoError) : ParseResult :=
  match e with
  | .httpProtoSentinel s =>
      ⟨"", httpProtocolErrors s, httpProtoMsg s, []⟩
  | .httpProtocolError errorString =>
      ⟨"", "http.ProtocolError", errorString, []⟩
  | .escapeError _ => ⟨"", "url.EscapeError", "invalid URL escape", []⟩
  | .invalidHostError _ =>
      ⟨"", "url.InvalidHostError", "invalid character in host name", []⟩
  | .textprotoError code msg =>
      ⟨"", "textproto.Error", goErrorMsg (.textprotoError code msg), []⟩
  | .textprotoProtocolError msg =>
      ⟨"", "textproto.ProtocolError", goErrorMsg (.textprotoProtocolError msg), []⟩
  | .tlsRecordHeaderError msg h0 h1 h2 h3 h4 =>
      ⟨"", "tls.RecordHeaderError", msg,
        setExtra [] "header"
          (hexByte h0 ++ hexByte h1 ++ hexByte h2 ++ hexByte h3 ++ hexByte h4)⟩
  | .x509CertificateInvalidError errMsg =>
      ⟨"", "x509.CertificateInvalidError", errMsg, []⟩
  | .x509ConstraintViolationError =>
      ⟨"", "x509.ConstraintViolationError", goErrorMsg .x509ConstraintViolationError, []⟩
  | .x509HostnameError host errMsg =>
      ⟨"", "x509.HostnameError", errMsg, setExtra [] "host" host⟩
  | .x509InsecureAlgorithmError errMsg =>
      ⟨"", "x509.InsecureAlgorithmError", errMsg, []⟩
  | .x509SystemRootsError =>
      ⟨"", "x509.SystemRootsError", goErrorMsg .x509SystemRootsError, []⟩
  | .x509UnhandledCriticalExtension =>
      ⟨"", "x509.UnhandledCriticalExtension", goErrorMsg .x509UnhandledCriticalExtension, []⟩
  | .x509UnknownAuthorityError errMsg =>
      ⟨"", "x509.UnknownAuthorityError", errMsg, []⟩
  | .hexInvalidByteError _ _ => ⟨"", "hex.InvalidByteError", "invalid byte", []⟩
  | .jsonInvalidUTF8Error _ =>
      ⟨"", "json.InvalidUTF8Error", "invalid UTF-8 in string", []⟩
  | .jsonInvalidUnmarshalError errMsg =>
      ⟨"", "json.InvalidUnmarshalError", errMsg, []⟩
  | .jsonMarshalerError errMsg => ⟨"", "json.MarshalerError", errMsg, []⟩
  | .jsonSyntaxError errMsg => ⟨"", "json.SyntaxError", errMsg, []⟩
  | .jsonUnmarshalFieldError errMsg =>
      ⟨"", "json.UnmarshalFieldError", errMsg, []⟩
  | .jsonUnmarshalTypeError errMsg =>
      ⟨"", "json.UnmarshalTypeError", errMsg, []⟩
  | .jsonUnsupportedTypeError errMsg =>
      ⟨"", "json.UnsupportedTypeError", errMsg, []⟩
  | .jsonUnsupportedValueError errMsg =>
      ⟨"", "json.UnsupportedValueError", errMsg, []⟩
  | .osLinkError op old new_ errMsg =>
      ⟨"", "textproto.ProtocolError", goErrorMsg (.osLinkError op old new_ errMsg), []⟩
  | .osPathError op _ errMsg => ⟨op, "os.PathError", errMsg, []⟩
  | .osSyscallError sys errMsg => ⟨sys, "os.SyscallError", errMsg, []⟩
  | .execError _ errMsg => ⟨"", "exec.Error", errMsg, []⟩
  | .execExitError errMsg stderr =>
      ⟨"", "exec.ExitError", errMsg, setExtra [] "stderr" stderr⟩
  | .strconvNumError func_ _ errMsg =>
      ⟨"", "strconv.NumError", errMsg, setExtra [] "function" func_⟩
  | .timeParseError _ _ _ _ message => ⟨"", "time.ParseError", message, []⟩
  | e =>
      match e with
      | .miscSentinel s => ⟨"", miscErrors s, goErrorMsg (.miscSentinel s), []⟩
      | e => ⟨"", dynamicTypeName e, goErrorMsg e, []⟩

/-- The source's `parseError` (lines 216-390): ordered dispatch on the
`net.Error` interface (unwrapping a `*net.OpError` wrapper first), then
the `runtime.Error` interface, then the struct switch. -/
def parseError (err : GoError) : ParseResult :=
  if isNetError err then
    match err with
    | .opError op source addr net_ inner =>
        let ex : Extra := match source with
          | some s => setExtra [] "localAddr" s
          | none => []
        let ex := match addr with
          | some a => setExtra ex "remoteAddr" a
          | none => ex
        netSwitch op (setExtra ex "network" net_) inner
    | e => netSwitch "" [] e
  else if isRuntimeError err then runtimeSwitch err
  else structSwitch err

/-- The `systemInfo` snapshot (source lines 49-53). -/
structure SystemInfo where
  osType : String
  osVersion : String
  osArch : String
deriving DecidableEq, Repr

/-- The `UserLocale` block (source lines 55-59). -/
structure UserLocale where
  timeZone : String
  language : String
  country : String
deriving DecidableEq, Repr

/-- The `Error` struct (source lines 92-107).  The `*ProxyingInfo` and
`*UserAgentInfo` embedded pointers are embedded as addresses so aliasing
between records is observable; `WithLocale` allocates its `*UserLocale`
freshly from probed values, so that block is embedded by value. -/
structure Error where
  goPackage : String
  goType : String
  desc : String
  op : Op
  extra : Extra
  sysInfo : SystemInfo
  proxy : Option Nat
  locale : Option UserLocale
  userAgent : Option Nat
deriving DecidableEq, Repr

/-- The `ErrorCollector` struct (source lines 124-128); the `golog`
logger is unused by the modelled operations and omitted. -/
structure ErrorCollector where
  goPackage : String
  sysInfo : SystemInfo
deriving DecidableEq, Repr

/-- The decorators of type `withFunc` (source lines 130-160), as data so
that statements can quantify over decorator lists.  `withProxy` and
`withUserAgent` carry the address of the caller's block, exactly what the
source closures capture; `withLocale` carries the values the source
probes from the environment (`time.Now().Format("MST")` and the
`jibber_jabber` detections), from which it allocates a fresh block. -/
inductive withFunc where
  | withOp (op : Op)
  | withProxy (info : Nat)
  | withLocale (timeZone language country : String)
  | withUserAgent (info : Nat)
deriving DecidableEq, Repr

/-- Application of one decorator to the record, mirroring each closure
body in the source. -/
def applyWith (e : Error) : withFunc → Error
  | .withOp op => { e with op := op }
  | .withProxy info => { e with proxy := some info }
  | .withLocale tz lang country =>
      { e with locale := some ⟨tz, lang, country⟩ }
  | .withUserAgent info => { e with userAgent := some info }

/-- The record `ErrorCollector.Log` builds (source lines 162-174): the
classified base fields plus the collector's snapshot, then the decorators
folded in call order.  This is the value handed to the active Reporter. -/
def ErrorCollector.Log (c : ErrorCollector) (err : GoError)
    (with_ : List withFunc) : Error :=
  let pr := parseError err
  let actual : Error :=
    { goPackage := c.goPackage, goType := pr.goType, desc := pr.desc,
      op := pr.op, extra := pr.extra, sysInfo := c.sysInfo,
      proxy := none, locale := none, userAgent := none }
  with_.foldl applyWith actual

/-- The `NewErrorCollector` constructor (source lines 178-189), with the
host probes (`runtime.GOOS`, `runtime.GOARCH`, `osversion`) supplied as
parameters of the environment. -/
def NewErrorCollector (goPackage osType osArch osVersion : String) :
    ErrorCollector :=
  { goPackage := goPackage,
    sysInfo := { osType := osType, osArch := osArch, osVersion := osVersion } }

/-- Go panics observable in the embedding: the nil-interface method-call
fault and an explicit `panic(msg)`. -/
inductive GoPanic where
  | nilPointerDeref
  | panicMsg (msg : String)
deriving DecidableEq, Repr

/-- A call `err.Error()` on a possibly-nil Go error interface value:
faults when the interface is nil. -/
def errErrorCall : Option GoError → Except GoPanic String
  | none => Except.error GoPanic.nilPointerDeref
  | some e => Except.ok (goErrorMsg e)

/-- `parseError` at the language level, where the argument is a Go
interface value and may be nil.  A nil error fails both interface
assertions and every case of the struct switch, so the default branch
runs `desc = err.Error()` (source line 381) first, which faults. -/
def parseErrorTop : Option GoError → Except GoPanic ParseResult
  | some e => Except.ok (parseError e)
  | none =>
      (errErrorCall none).map (fun d => ⟨"", "", d, []⟩)

/-- The source's `toJSON` (lines 201-207): marshal the record and panic
with `failed to convert error to json: ...` when marshalling fails.  The
serializer is a parameter, since `json.Marshal` is library behaviour. -/
def toJSON (marshal : Error → Except String String) (e : Error) :
    Except GoPanic String :=
  match marshal e with
  | Except.ok b => Except.ok b
  | Except.error m =>
      Except.error (GoPanic.panicMsg ("failed to convert error to json: " ++ m))

/-- `StdReporter.Report` (source lines 212-214): emit the serialized
record; its observable outcome is the emitted string or the panic. -/
def stdReport (marshal : Error → Except String String) (e : Error) :
    Except GoPanic String :=
  toJSON marshal e

/-- `ErrorCollector.Log` with the default `StdReporter` installed, at the
language level: a nil error faults inside `parseError`; otherwise the
record is built, decorated and handed to the reporter, whose panic (if
any) propagates to the caller. -/
def LogStd (marshal : Error → Except String String) (c : ErrorCollector)
    (err : Option GoError) (with_ : List withFunc) : Except GoPanic String :=
  match parseErrorTop err with
  | Except.error p => Except.error p
  | Except.ok pr =>
      let actual : Error :=
        { goPackage := c.goPackage, goType := pr.goType, desc := pr.desc,
          op := pr.op, extra := pr.extra, sysInfo := c.sysInfo,
          proxy := none, locale := none, userAgent := none }
      stdReport marshal (with_.foldl applyWith actual)

/-- Events of a sequential run against the global reporter registry: the
source's `ReportTo` swap (lines 197-199) and a `Log` call. -/
inductive RepEvent where
  | reportTo (r : Nat)
  | logCall (err : GoError) (with_ : List withFunc)

/-- Whether an event is a `ReportTo` swap. -/
def isReportTo : RepEvent → Bool
  | .reportTo _ => true
  | .logCall _ _ => false

/-- One step of the registry run: `ReportTo` replaces the current
reporter; `Log` hands its record to the current reporter, appending
exactly one delivery `(reporter, record)` to the trace, as the single
`currentReporter.Report(actual)` call at source line 175 does. -/
def repStep (c : ErrorCollector) (st : Nat × List (Nat × Error)) :
    RepEvent → Nat × List (Nat × Error)
  | .reportTo r => (r, st.2)
  | .logCall e w => (st.1, st.2 ++ [(st.1, c.Log e w)])

/-- Run a sequence of registry events from initial reporter `r0`,
returning the final current reporter and the delivery trace. -/
def runReports (c : ErrorCollector) (r0 : Nat) (evs : List RepEvent) :
    Nat × List (Nat × Error) :=
  evs.foldl (repStep c) (r0, [])

/-- Number of `Log` calls in an event sequence. -/
def countLogs (evs : List RepEvent) : Nat :=
  (evs.filter (fun ev => !isReportTo ev)).length

/-- Non-emptiness of the dynamic type names carried by an embedded error
(and, for a `*net.OpError`, by its inner error): in Go,
`reflect.TypeOf(v).String()` of a non-nil value is never empty, so this
holds of every value the runtime can present. -/
def namesOK (e : GoError) : Bool :=
  !(dynamicTypeName e == "") &&
    (match e with
     | .opError _ _ _ _ inner => !(dynamicTypeName inner == "")
     | _ => true)

/-- Concrete collector used by closed witness statements. -/
def testCollector : ErrorCollector :=
  NewErrorCollector "flashlight" "linux" "amd64" "Ubuntu 16.04"

/-- Whether a decorator is a `WithOp`. -/
def isWithOp : withFunc → Bool
  | .withOp _ => true
  | _ => false

lemma applyWith_keeps_classification (e : Error) (d : withFunc) :
    (applyWith e d).goType = e.goType ∧ (applyWith e d).desc = e.desc ∧
      (applyWith e d).sysInfo = e.sysInfo := by
  cases d <;> exact ⟨rfl, rfl, rfl⟩

lemma foldl_applyWith_goType (w : List withFunc) :
    ∀ e : Error, (w.foldl applyWith e).goType = e.goType := by
  induction w with
  | nil => intro e; rfl
  | cons d rest ih =>
      intro e
      simpa [List.foldl_cons, (applyWith_keeps_classification e d).1] using
        ih (applyWith e d)

lemma foldl_applyWith_desc (w : List withFunc) :
    ∀ e : Error, (w.foldl applyWith e).desc = e.desc := by
  induction w with
  | nil => intro e; rfl
  | cons d rest ih =>
      intro e
      simpa [List.foldl_cons, (applyWith_keeps_classification e d).2.1] using
        ih (applyWith e d)

lemma applyWith_op_of_not_withOp (e : Error) (d : withFunc)
    (h : isWithOp d = false) : (applyWith e d).op = e.op := by
  cases d with
  | withOp o => simp [isWithOp] at h
  | withProxy i => rfl
  | withLocale a b c => rfl
  | withUserAgent i => rfl

lemma foldl_applyWith_op (w : List withFunc)
    (h : ∀ d ∈ w, isWithOp d = false) :
    ∀ e : Error, (w.foldl applyWith e).op = e.op := by
  induction w with
  | nil => intro e; rfl
  | cons d rest ih =>
      intro e
      have hd : isWithOp d = false := h d (by simp)
      have hrest : ∀ d ∈ rest, isWithOp d = false := fun x hx => h x (by simp [hx])
      simpa [List.foldl_cons, applyWith_op_of_not_withOp e d hd] using
        (ih hrest (applyWith e d))

lemma miscErrors_ne_empty (s : MiscErr) : miscErrors s ≠ "" := by
  cases s <;> decide

lemma httpProtocolErrors_ne_empty (s : HttpProtoErr) :
    httpProtocolErrors s ≠ "" := by
  cases s <;> decide

lemma netSwitch_goType_ne_empty (op0 : String) (ex : Extra) (e : GoError)
    (h : dynamicTypeName e ≠ "") : (netSwitch op0 ex e).goType ≠ "" := by
  cases e <;> first | exact h | simp [netSwitch]

lemma parseError_goType_ne_empty (e : GoError) (h : namesOK e = true) :
    (parseError e).goType ≠ "" := by
  cases e
  case opError op src addr n inner =>
    have h2 : dynamicTypeName inner ≠ "" := by
      simp [namesOK, dynamicTypeName] at h
      exact h
    simp only [parseError, isNetError, if_true]
    exact netSwitch_goType_ne_empty _ _ _ h2
  case customNet t m =>
    have h2 : t ≠ "" := by simp [namesOK, dynamicTypeName] at h; exact h
    simpa [parseError, isNetError, netSwitch, dynamicTypeName] using h2
  case otherRuntimeError t m =>
    have h2 : t ≠ "" := by simp [namesOK, dynamicTypeName] at h; exact h
    simpa [parseError, isNetError, isRuntimeError, runtimeSwitch,
      dynamicTypeName] using h2
  case custom t m =>
    have h2 : t ≠ "" := by simp [namesOK, dynamicTypeName] at h; exact h
    simpa [parseError, isNetError, isRuntimeError, structSwitch,
      dynamicTypeName] using h2
  case miscSentinel s =>
    have := miscErrors_ne_empty s
    simpa [parseError, isNetError, isRuntimeError, structSwitch] using this
  case httpProtoSentinel s =>
    have := httpProtocolErrors_ne_empty s
    simpa [parseError, isNetError, isRuntimeError, structSwitch] using this
  all_goals
    simp [parseError, isNetError, isRuntimeError, netSwitch, runtimeSwitch,
      structSwitch]

lemma foldl_repStep_fst (c : ErrorCollector) (post : List RepEvent) :
    ∀ st : Nat × List (Nat × Error),
      (∀ ev ∈ post, isReportTo ev = false) →
      (post.foldl (repStep c) st).1 = st.1 := by
  induction post with
  | nil => intro st _; rfl
  | cons ev rest ih =>
      intro st h
      have hev : isReportTo ev = false := h ev (by simp)
      have hrest : ∀ x ∈ rest, isReportTo x = false := fun x hx => h x (by simp [hx])
      cases ev with
      | reportTo r => simp [isReportTo] at hev
      | logCall e w =>
          simpa [List.foldl_cons, repStep] using ih (repStep c st (.logCall e w)) hrest

lemma foldl_repStep_length (c : ErrorCollector) (evs : List RepEvent) :
    ∀ st : Nat × List (Nat × Error),
      ((evs.foldl (repStep c) st).2).length = st.2.length + countLogs evs := by
  induction evs with
  | nil => intro st; simp [countLogs]
  | cons ev rest ih =>
      intro st
      cases ev with
      | reportTo r =>
          simpa [List.foldl_cons, repStep, countLogs, isReportTo] using
            ih (repStep c st (.reportTo r))
      | logCall e w =>
          have := ih (repStep c st (.logCall e w))
          simp [List.foldl_cons, repStep, countLogs, isReportTo] at this ⊢
          omega

/-- C1: each structured/library shape is supposed to yield its own fixed
Kind, distinct from every other shape's.  The code violates this: the
`*os.LinkError` case (source lines 354-356) assigns the Kind string
`textproto.ProtocolError`, so an OS link error and a textproto protocol
error are classified under the same Kind.  This theorem evaluates the
code at a failing input and exhibits the collision. -/
theorem parseError_linkError_collides_with_textproto :
    (parseError (.osLinkError "link" "old.txt" "new.txt" "file exists")).goType
        = "textproto.ProtocolError"
      ∧ (parseError (.textprotoProtocolError "bad response")).goType
        = "textproto.ProtocolError"
      ∧ (parseError (.osLinkError "link" "old.txt" "new.txt" "file exists")).goType
        = (parseError (.textprotoProtocolError "bad response")).goType
      ∧ (parseError (.osLinkError "link" "old.txt" "new.txt" "file exists")).goType
        ≠ "os.LinkError" :=
  ⟨rfl, rfl, rfl, by decide⟩

/-- C2 counterexample: `Log` as stated never raises, including when the
default Reporter fails to serialize; but the source's `toJSON` panics on
a marshalling failure (lines 201-207) and that panic propagates through
`StdReporter.Report` out of `Log` to the caller. -/
theorem LogStd_serialization_panic_cex :
    LogStd (fun _ => Except.error "unsupported value") testCollector
        (some (.custom "mypkg.myError" "boom")) []
      = Except.error
          (GoPanic.panicMsg "failed to convert error to json: unsupported value") :=
  rfl

/-- C2 amended: classification and decoration never raise — the outcome
of `Log` with the default Reporter is determined solely by the
serializer's outcome on the finished record: `Log` returns normally
exactly when serialization succeeds, and propagates the serialization
panic otherwise. -/
theorem Log_outcome_determined_by_serializer :
    (∀ (m : Error → Except String String) (c : ErrorCollector) (e : GoError)
        (w : List withFunc) (b : String),
        m (c.Log e w) = Except.ok b → LogStd m c (some e) w = Except.ok b)
      ∧ (∀ (m : Error → Except String String) (c : ErrorCollector) (e : GoError)
          (w : List withFunc) (msg : String),
          m (c.Log e w) = Except.error msg →
          LogStd m c (some e) w
            = Except.error
                (GoPanic.panicMsg ("failed to convert error to json: " ++ msg))) := by
  constructor
  · intro m c e w b h
    have hbase : LogStd m c (some e) w = toJSON m (c.Log e w) := rfl
    rw [hbase]
    simp [toJSON, h]
  · intro m c e w msg h
    have hbase : LogStd m c (some e) w = toJSON m (c.Log e w) := rfl
    rw [hbase]
    simp [toJSON, h]

/-- Witness for `Log_outcome_determined_by_serializer` at concrete
serializers, discharging both hypotheses. -/
theorem Log_outcome_determined_by_serializer_witness :
    ((fun _ => Except.ok "serialized" : Error → Except String String)
        (testCollector.Log (.miscSentinel .ioEOF) []) = Except.ok "serialized"
      ∧ LogStd (fun _ => Except.ok "serialized") testCollector
          (some (.miscSentinel .ioEOF)) [] = Except.ok "serialized")
    ∧ ((fun _ => Except.error "cycle" : Error → Except String String)
          (testCollector.Log (.custom "T" "x") []) = Except.error "cycle"
      ∧ LogStd (fun _ => Except.error "cycle") testCollector
          (some (.custom "T" "x")) []
        = Except.error
            (GoPanic.panicMsg ("failed to convert error to json: " ++ "cycle"))) :=
  ⟨⟨rfl, Log_outcome_determined_by_serializer.1 _ testCollector _ _ _ rfl⟩,
   ⟨rfl, Log_outcome_determined_by_serializer.2 _ testCollector _ _ _ rfl⟩⟩

/-- C3: in every sequential run of `ReportTo` and `Log` calls, a `Log`
performed after `ReportTo(r)` with no intervening swap delivers its
record to `r` and appends exactly that one delivery to the trace (so no
previously installed reporter receives it); and every run delivers
exactly one record per `Log` call, so no record reaches two reporters. -/
theorem reportTo_routes_subsequent_logs :
    (∀ (c : ErrorCollector) (r0 : Nat) (pre : List RepEvent) (r : Nat)
        (post : List RepEvent) (e : GoError) (w : List withFunc),
        (∀ ev ∈ post, isReportTo ev = false) →
        (runReports c r0
            (pre ++ RepEvent.reportTo r :: (post ++ [RepEvent.logCall e w]))).2
          = (runReports c r0 (pre ++ RepEvent.reportTo r :: post)).2
              ++ [(r, c.Log e w)])
      ∧ (∀ (c : ErrorCollector) (r0 : Nat) (evs : List RepEvent),
          ((runReports c r0 evs).2).length = countLogs evs) := by
  constructor
  · intro c r0 pre r post e w h
    have hsplit :
        pre ++ RepEvent.reportTo r :: (post ++ [RepEvent.logCall e w])
          = (pre ++ RepEvent.reportTo r :: post) ++ [RepEvent.logCall e w] := by
      simp
    rw [hsplit]
    have hfst : (runReports c r0 (pre ++ RepEvent.reportTo r :: post)).1 = r := by
      have h1 :
          runReports c r0 (pre ++ RepEvent.reportTo r :: post)
            = post.foldl (repStep c)
                (repStep c (runReports c r0 pre) (RepEvent.reportTo r)) := by
        simp [runReports, List.foldl_append, List.foldl_cons]
      rw [h1]
      have h2 :
          (repStep c (runReports c r0 pre) (RepEvent.reportTo r)).1 = r := rfl
      rw [foldl_repStep_fst c post _ h, h2]
    have h3 :
        runReports c r0 ((pre ++ RepEvent.reportTo r :: post)
            ++ [RepEvent.logCall e w])
          = repStep c (runReports c r0 (pre ++ RepEvent.reportTo r :: post))
              (RepEvent.logCall e w) := by
      simp [runReports, List.foldl_append]
    rw [h3, repStep, hfst]
  · intro c r0 evs
    simpa using foldl_repStep_length c evs (r0, [])

/-- Witness for `reportTo_routes_subsequent_logs` on a concrete run with
a mid-run swap, discharging the no-intervening-swap hypothesis. -/
theorem reportTo_routes_subsequent_logs_witness :
    (∀ ev ∈ [RepEvent.logCall (.custom "T" "m") []], isReportTo ev = false)
      ∧ (runReports testCollector 0
            ([RepEvent.reportTo 1, RepEvent.logCall (.miscSentinel .ioEOF) []]
              ++ RepEvent.reportTo 2 ::
                ([RepEvent.logCall (.custom "T" "m") []]
                  ++ [RepEvent.logCall (.custom "U" "n") []]))).2
          = (runReports testCollector 0
              ([RepEvent.reportTo 1, RepEvent.logCall (.miscSentinel .ioEOF) []]
                ++ RepEvent.reportTo 2 ::
                  [RepEvent.logCall (.custom "T" "m") []])).2
              ++ [(2, testCollector.Log (.custom "U" "n") [])] :=
  ⟨by intro ev hev; simp at hev; subst hev; rfl,
   reportTo_routes_subsequent_logs.1 testCollector 0
     [RepEvent.reportTo 1, RepEvent.logCall (.miscSentinel .ioEOF) []] 2
     [RepEvent.logCall (.custom "T" "m") []] (.custom "U" "n") []
     (by intro ev hev; simp at hev; subst hev; rfl)⟩

/-- C4 counterexample: the sentinel-table match is claimed to hold
regardless of wrapping context, in particular for a sentinel inside a
`*net.OpError`; but the wrapper routes classification into the
network-interface branch, whose inner switch has no sentinel lookup, so
a wrapped end-of-file is classified by its dynamic type name instead of
the table's `io.EOF`. -/
theorem sentinel_wrapped_in_opError_cex :
    (parseError (.opError "read" none none "tcp" (.miscSentinel .ioEOF))).goType
        = "*errors.errorString"
      ∧ (parseError (.opError "read" none none "tcp"
            (.miscSentinel .ioEOF))).goType ≠ "io.EOF"
      ∧ (parseError (.opError "read" none none "tcp"
            (.miscSentinel .ioEOF))).goType ≠ miscErrors .ioEOF :=
  ⟨rfl, by decide, by decide⟩

/-- C4 amended: a sentinel-table match yields the table's exact Kind
string when the sentinel is classified at top level, taking precedence
over the dynamic-type-name fallback; but when the sentinel is the inner
error of a network-operation wrapper, the network-category dispatch
applies and classifies it by its dynamic type name instead. -/
theorem sentinel_table_toplevel_only :
    ∀ (s : MiscErr) (op0 : String) (src addr : Option String) (n : String),
      (parseError (.miscSentinel s)).goType = miscErrors s
        ∧ (parseError (.miscSentinel s)).desc = miscMsg s
        ∧ (parseError (.opError op0 src addr n (.miscSentinel s))).goType
            = dynamicTypeName (.miscSentinel s) := by
  intro s op0 src addr n
  exact ⟨rfl, rfl, rfl⟩

/-- C5 counterexample: the record handed to the Reporter is claimed to
always carry a non-empty Description; but the `*net.AddrError` case
copies the error's `Err` field verbatim (source line 235), so an address
error whose `Err` field is empty yields an empty Description. -/
theorem desc_empty_addrError_cex :
    (testCollector.Log (.addrError "" "1.2.3.4") []).desc = ""
      ∧ (testCollector.Log (.addrError "" "1.2.3.4") []).goType
          = "net.AddrError" :=
  ⟨rfl, rfl⟩

/-- C5 amended: for every non-nil error whose dynamic type names are
non-empty (as Go reflection guarantees), the record handed to the
Reporter has a non-empty Kind, and its Description is exactly whatever
message the classifier extracted — which may be empty when the source
error's message field is empty; when no classification rule matches,
Kind falls back to the error's dynamic type name. -/
theorem Kind_nonempty_desc_from_classifier :
    (∀ (c : ErrorCollector) (e : GoError) (w : List withFunc),
        namesOK e = true →
        (c.Log e w).goType ≠ "" ∧ (c.Log e w).desc = (parseError e).desc)
      ∧ (∀ t m : String,
          parseError (.custom t m) = ⟨"", t, m, []⟩) := by
  constructor
  · intro c e w h
    constructor
    · have h1 : (c.Log e w).goType = (parseError e).goType :=
        foldl_applyWith_goType w _
      rw [h1]
      exact parseError_goType_ne_empty e h
    · exact foldl_applyWith_desc w _
  · intro t m
    rfl

/-- Witness for `Kind_nonempty_desc_from_classifier` at a concrete
wrapped error, discharging the name-non-emptiness hypothesis. -/
theorem Kind_nonempty_desc_from_classifier_witness :
    namesOK (.opError "dial" (some "10.0.0.2:4100") none "tcp"
        (.custom "*mypkg.dialFailure" "refused")) = true
      ∧ ((testCollector.Log (.opError "dial" (some "10.0.0.2:4100") none "tcp"
            (.custom "*mypkg.dialFailure" "refused"))
            [withFunc.withLocale "MST" "en" "US"]).goType ≠ ""
        ∧ (testCollector.Log (.opError "dial" (some "10.0.0.2:4100") none "tcp"
            (.custom "*mypkg.dialFailure" "refused"))
            [withFunc.withLocale "MST" "en" "US"]).desc
          = (parseError (.opError "dial" (some "10.0.0.2:4100") none "tcp"
              (.custom "*mypkg.dialFailure" "refused"))).desc) :=
  ⟨by decide,
   Kind_nonempty_desc_from_classifier.1 testCollector _ _ (by decide)⟩

/-- C6: a URL-error is classified with Kind `url.Error` and its own
Operation, and when it is the inner error of a network-operation
wrapper, its Operation overrides the one taken from the wrapper
(source lines 220-231 and 257-260). -/
theorem urlError_op_overrides_wrapper :
    ∀ (uop u : String) (inner : GoError) (op0 : String)
      (src addr : Option String) (n : String),
      (parseError (.urlError uop u inner)).goType = "url.Error"
        ∧ (parseError (.urlError uop u inner)).op = uop
        ∧ (parseError (.urlError uop u inner)).desc = goErrorMsg inner
        ∧ (parseError (.opError op0 src addr n (.urlError uop u inner))).op = uop
        ∧ (parseError (.opError op0 src addr n (.urlError uop u inner))).goType
            = "url.Error" := by
  intro uop u inner op0 src addr n
  exact ⟨rfl, rfl, rfl, rfl, rfl⟩

/-- C7 counterexample: the optional context blocks are claimed to be
owned exclusively by each record even when the caller passes the same
block to two `Log` calls; but `WithProxy` stores the caller's pointer
(source lines 138-142), so two records produced from separate `Log`
calls with the same block argument hold the same block — it is shared,
not an exclusive copy. -/
theorem proxy_block_aliasing_cex :
    (testCollector.Log (.custom "errA" "x") [withFunc.withProxy 7]).proxy = some 7
      ∧ (testCollector.Log (.custom "errB" "y") [withFunc.withProxy 7]).proxy
          = some 7
      ∧ (testCollector.Log (.custom "errA" "x") [withFunc.withProxy 7]).proxy
          = (testCollector.Log (.custom "errB" "y") [withFunc.withProxy 7]).proxy :=
  ⟨rfl, rfl, rfl⟩

/-- C7 amended: `WithProxy` and `WithUserAgent` attach the caller's block
by reference — the record stores exactly the pointer passed in, so two
records decorated with the same block argument share that block rather
than owning exclusive copies (`WithLocale` alone allocates a fresh block
from probed values). -/
theorem context_blocks_attached_by_reference :
    ∀ (c : ErrorCollector) (e1 e2 : GoError) (a : Nat)
      (tz lang country : String),
      (c.Log e1 [withFunc.withProxy a]).proxy = some a
        ∧ (c.Log e2 [withFunc.withUserAgent a]).userAgent = some a
        ∧ (c.Log e1 [withFunc.withProxy a]).proxy
            = (c.Log e2 [withFunc.withProxy a]).proxy
        ∧ (c.Log e1 [withFunc.withLocale tz lang country]).locale
            = some ⟨tz, lang, country⟩ := by
  intro c e1 e2 a tz lang country
  exact ⟨rfl, rfl, rfl, rfl⟩

/-- C8: a `WithOp(o)` decorator applied after classification, with no
later `WithOp` in the decorator list, leaves the record's Operation
equal to `o`, overriding whatever Operation the classifier inferred
(source lines 132-136 and 172-174). -/
theorem WithOp_overrides_classifier :
    ∀ (c : ErrorCollector) (err : GoError) (o : Op) (l1 l2 : List withFunc),
      (∀ d ∈ l2, isWithOp d = false) →
      (c.Log err (l1 ++ withFunc.withOp o :: l2)).op = o := by
  intro c err o l1 l2 h
  have hsplit :
      (c.Log err (l1 ++ withFunc.withOp o :: l2))
        = l2.foldl applyWith
            (applyWith (l1.foldl applyWith
              (c.Log err [])) (withFunc.withOp o)) := by
    simp [ErrorCollector.Log, List.foldl_append, List.foldl_cons]
  rw [hsplit, foldl_applyWith_op l2 h]
  rfl

/-- Witness for `WithOp_overrides_classifier` on a concrete decorator
list with decorators on both sides of the `WithOp`. -/
theorem WithOp_overrides_classifier_witness :
    (∀ d ∈ [withFunc.withProxy 3, withFunc.withUserAgent 5],
        isWithOp d = false)
      ∧ (testCollector.Log (.osPathError "open" "/etc/hosts" "permission denied")
          ([withFunc.withLocale "MST" "en" "US"]
            ++ withFunc.withOp "dial"
              :: [withFunc.withProxy 3, withFunc.withUserAgent 5])).op
        = "dial" :=
  ⟨by decide,
   WithOp_overrides_classifier testCollector _ "dial"
     [withFunc.withLocale "MST" "en" "US"]
     [withFunc.withProxy 3, withFunc.withUserAgent 5] (by decide)⟩

/-- C9: `Collector.Log` with zero decorators hands the Reporter a record
whose SystemInfo is the snapshot captured at `NewErrorCollector` time
and whose optional context blocks are all absent (source lines 162-176
and 178-189). -/
theorem Log_zero_decorators_snapshot :
    ∀ (pkg ot oa ov : String) (e : GoError),
      ((NewErrorCollector pkg ot oa ov).Log e []).sysInfo
          = (NewErrorCollector pkg ot oa ov).sysInfo
        ∧ (NewErrorCollector pkg ot oa ov).sysInfo
            = { osType := ot, osVersion := ov, osArch := oa }
        ∧ ((NewErrorCollector pkg ot oa ov).Log e []).goPackage = pkg
        ∧ ((NewErrorCollector pkg ot oa ov).Log e []).proxy = none
        ∧ ((NewErrorCollector pkg ot oa ov).Log e []).locale = none
        ∧ ((NewErrorCollector pkg ot oa ov).Log e []).userAgent = none := by
  intro pkg ot oa ov e
  exact ⟨rfl, rfl, rfl, rfl, rfl, rfl⟩

/-- C10: `parseError` is total on non-nil errors — every embedded error
value yields a result (with its extra map initialized, possibly empty) —
while a nil error is a genuine precondition violation: it falls through
both interface assertions into the struct-switch default, whose
`err.Error()` call faults, and this fault reaches the public `Log`
entrypoint. -/
theorem parseError_total_nonnil_faults_on_nil :
    (∀ e : GoError, parseErrorTop (some e) = Except.ok (parseError e))
      ∧ parseErrorTop none = Except.error GoPanic.nilPointerDeref
      ∧ (∀ (m : Error → Except String String) (c : ErrorCollector)
          (w : List withFunc),
          LogStd m c none w = Except.error GoPanic.nilPointerDeref)
      ∧ (parseError (.custom "T" "msg")).extra = []
      ∧ (parseError (.dnsError "no such host" "x.test" "")).extra
          = [("domain", "x.test")] :=
  ⟨fun _ => rfl, rfl, fun _ _ _ => rfl, rfl, rfl⟩
